import Mathlib

/-!
# Verification of the SPI_Clock repository

Shallow embedding of the two C programs `SPI_Clock.c` (civil clock) and
`SPI_Sidereal.c` (sidereal clock), both driving a MAX6951 8-digit display,
together with proofs about the spec's claims.

Floating-point `long double` arithmetic of the sidereal computation is
modelled over the exact rationals `ℚ`; machine integers are modelled as
`ℤ`/`ℕ` with explicit truncation where the C code truncates.
-/

namespace SPI_Sidereal

/-- Constant `EPOCH_CTIME`: C time of 2000-01-01 00:00 UTC (seconds since Unix epoch). -/
def EPOCH_CTIME : ℚ := 946684800

/-- Constant `EPOCH_JDATE`: the same instant as a Julian date, 2451544.5. -/
def EPOCH_JDATE : ℚ := 2451544.5

/-- Constant `FUDGE`: latency compensation, `250L * 1000L` nanoseconds. -/
def FUDGE : ℤ := 250 * 1000

/-- Constant `SECOND_IN_NANOS`: one billion (nonnegative `long`, modelled in ℕ). -/
def SECOND_IN_NANOS : ℕ := 1000 * 1000 * 1000

/-- Constant `TENTH_IN_NANOS = SECOND_IN_NANOS / 10`. -/
def TENTH_IN_NANOS : ℕ := SECOND_IN_NANOS / 10

/-- Constant `HUNDREDTH_IN_NANOS = SECOND_IN_NANOS / 100`. -/
def HUNDREDTH_IN_NANOS : ℕ := SECOND_IN_NANOS / 100

/-- A C cast of a real value to an integer type (`(long)(now / 86400)`):
truncation toward zero. -/
def ctrunc (q : ℚ) : ℤ := if 0 ≤ q then ⌊q⌋ else ⌈q⌉

/-- Variable `now` in `update_display`: `now_spec.tv_sec + now_spec.tv_nsec / SECOND_IN_NANOS`
as an exact rational number of seconds. -/
def nowOf (sec : ℤ) (nsec : ℕ) : ℚ := sec + (nsec : ℚ) / 1000000000

/-- Source line `JD = ((now - EPOCH_CTIME) / 86400.0L) + EPOCH_JDATE`. -/
def JD (now : ℚ) : ℚ := (now - EPOCH_CTIME) / 86400 + EPOCH_JDATE

/-- Source line `JD0 = (((((long)(now / 86400)) * 86400) - EPOCH_CTIME) / 86400.0) + EPOCH_JDATE`. -/
def JD0 (now : ℚ) : ℚ := ((ctrunc (now / 86400) * 86400 - EPOCH_CTIME) / 86400) + EPOCH_JDATE

/-- Source line `D0 = JD0 - (EPOCH_JDATE + .5)`. -/
def D0 (now : ℚ) : ℚ := JD0 now - (EPOCH_JDATE + 0.5)

/-- Source line `H = (JD - JD0) * 24.0`. -/
def H (now : ℚ) : ℚ := (JD now - JD0 now) * 24

/-- Source line `T = (JD - (EPOCH_JDATE + .5)) / 36525.0`. -/
def T (now : ℚ) : ℚ := (JD now - (EPOCH_JDATE + 0.5)) / 36525

/-- The GMST polynomial of `update_display`:
`gmst = (6.697374558L + 0.06570982441908L * D0 + 1.00273790935L * H) + 0.000026 * T * T`. -/
def gmstRaw (now : ℚ) : ℚ :=
  (6.697374558 + 0.06570982441908 * D0 now + 1.00273790935 * H now) + 0.000026 * T now * T now

/-- The wrapping loop of `update_display`: `while (gmst > 24.0) gmst -= 24.0;`. -/
def wrap24 (g : ℚ) : ℚ :=
  if h : g > 24 then wrap24 (g - 24) else g
termination_by (⌈g⌉).toNat
decreasing_by
  have h25 : (25 : ℤ) ≤ ⌈g⌉ := by
    have : (24 : ℚ) < (⌈g⌉ : ℚ) := lt_of_lt_of_le h (Int.le_ceil g)
    exact_mod_cast this
  have hsub : ⌈g - 24⌉ = ⌈g⌉ - 24 := by
    exact_mod_cast Int.ceil_sub_int g (24 : ℤ)
  omega

/-- The locally adjusted sidereal hour value of `update_display`:
`gmst += (longitude / 360.0L) * 24.0L;` followed by the wrap loop. -/
def localGmst (now longitude : ℚ) : ℚ :=
  wrap24 (gmstRaw now + (longitude / 360) * 24)

/-- Modelled from the spec: "the most recent UTC midnight" of an instant
(seconds since the Unix epoch), i.e. the instant truncated down to a whole
multiple of 86400 seconds. -/
def specMidnight (now : ℚ) : ℚ := (⌊now / 86400⌋ : ℚ) * 86400

/-- Modelled from the spec: the Julian date of the most recent UTC midnight. -/
def specJDmid (now : ℚ) : ℚ := (specMidnight now - EPOCH_CTIME) / 86400 + EPOCH_JDATE

/-- Modelled from the spec: the GMST formula exactly as the claim words it,
with `D0` the Julian-date offset of the most recent UTC midnight from the
claim's epoch JD 2451544.5 (2000-01-01T00:00 UTC), `H` the hours elapsed since
that midnight and `T` the Julian centuries elapsed since JD 2451544.5. -/
def gmstSpecClaim (now : ℚ) : ℚ :=
  6.697374558 + 0.06570982441908 * (specJDmid now - 2451544.5)
    + 1.00273790935 * ((now - specMidnight now) / 3600)
    + 0.000026 * ((JD now - 2451544.5) / 36525) ^ 2

/-- Modelled from the spec: the same formula with the epoch amended to
JD 2451545.0 (2000-01-01T12:00 UTC): `D0` is the Julian-date offset of the
most recent UTC midnight from JD 2451545.0, `H` the hours elapsed since that
midnight, `T` the Julian centuries elapsed since JD 2451545.0. -/
def gmstSpecAmended (now : ℚ) : ℚ :=
  6.697374558 + 0.06570982441908 * (specJDmid now - 2451545)
    + 1.00273790935 * ((now - specMidnight now) / 3600)
    + 0.000026 * ((JD now - 2451545) / 36525) ^ 2

/-- The carry loop of `schedule_timer`:
`while (tenth_val >= 10) { now.tv_sec++; tenth_val -= 10; }`. -/
def carryLoop (sec : ℤ) (tenth_val : ℕ) : ℤ × ℕ :=
  if tenth_val ≥ 10 then carryLoop (sec + 1) (tenth_val - 10) else (sec, tenth_val)
termination_by tenth_val
decreasing_by omega

/-- Function `schedule_timer`: from the current clock reading `(tv_sec, tv_nsec)` it
computes the absolute `it_value` `(tv_sec, tv_nsec)` passed to
`timer_settime(TIMER_ABSTIME)`:
truncate to hundredths, `tenth_val = (hundredth_val + 5) / 10 + 1`, carry
whole seconds, then back the target up by `FUDGE` (borrowing across the second
boundary when `tenth_val` is 0). -/
def schedule_timer (sec : ℤ) (nsec : ℕ) : ℤ × ℤ :=
  let hundredth_val : ℕ := nsec / HUNDREDTH_IN_NANOS
  let tenth_val : ℕ := (hundredth_val + 5) / 10 + 1
  let p := carryLoop sec tenth_val
  if p.2 ≠ 0 then (p.1, (p.2 * TENTH_IN_NANOS : ℕ) - FUDGE)
  else (p.1 - 1, (SECOND_IN_NANOS : ℕ) - FUDGE)

/-- The computed absolute wake time as a single count of nanoseconds. -/
def wakeNanos (sec : ℤ) (nsec : ℕ) : ℤ :=
  (schedule_timer sec nsec).1 * 1000000000 + (schedule_timer sec nsec).2

/-- A clock reading as a single count of nanoseconds. -/
def totalNanos (sec : ℤ) (nsec : ℕ) : ℤ := sec * 1000000000 + nsec

/-- Modelled from the spec: "now, rounded up to the next tenth-of-second
boundary, minus a fixed latency compensation constant": the smallest multiple
of one tenth of a second strictly above the reading, minus `FUDGE`. -/
def specNextTenthWake (sec : ℤ) (nsec : ℕ) : ℤ :=
  sec * 1000000000 + ((nsec / TENTH_IN_NANOS + 1) * TENTH_IN_NANOS : ℕ) - FUDGE

/-- Modelled from the spec: (amended) the reading truncated to hundredths
and rounded half-up to the nearest tenth-of-second boundary, plus one further
tenth of a second, minus `FUDGE`. -/
def nearestTenthSuccessorWake (sec : ℤ) (nsec : ℕ) : ℤ :=
  sec * 1000000000 + (((nsec / HUNDREDTH_IN_NANOS + 5) / 10 + 1) * TENTH_IN_NANOS : ℕ) - FUDGE

/-- Split a total nanosecond count back into a valid `timespec`-style pair
(Euclidean division, so the nanosecond part is in [0, 10^9)). -/
def splitTotal (n : ℤ) : ℤ × ℕ :=
  (n / 1000000000, (n % 1000000000).toNat)

/-- The ideal tick sequence: each timer callback reads the clock exactly at
the previously armed wake time and schedules the next one from that reading. -/
def wseq : ℕ → ℤ × ℕ
  | 0 => (0, 0)
  | k + 1 => splitTotal (wakeNanos (wseq k).1 (wseq k).2)

end SPI_Sidereal

namespace Display

/-- Macro `_BV(n) = 1 << n` (identical macro in both source files). -/
def BV (n : ℕ) : ℕ := 1 <<< n

/-- Cast `(unsigned char)(~x)` for a byte value `x`: complement within 8 bits. -/
def not8 (x : ℕ) : ℕ := 255 - x % 256

def MASK_DP : ℕ := BV 7

def MASK_A : ℕ := BV 6

def MASK_B : ℕ := BV 5

def MASK_C : ℕ := BV 4

def MASK_D : ℕ := BV 3

def MASK_E : ℕ := BV 2

def MASK_F : ℕ := BV 1

def MASK_G : ℕ := BV 0

/-- Macro `MASK_COLON_HM = MASK_E | MASK_F`. -/
def MASK_COLON_HM : ℕ := MASK_E ||| MASK_F

/-- Macro `MASK_COLON_MS = MASK_B | MASK_C`. -/
def MASK_COLON_MS : ℕ := MASK_B ||| MASK_C

def MASK_AM : ℕ := MASK_A

def MASK_PM : ℕ := MASK_D

def DIGIT_100_MSEC : ℕ := 6

def DIGIT_MISC : ℕ := 7

/-- Both colon bit pairs (hour:minute segments E,F and minute:second segments
B,C) are lit in an indicator-digit byte. -/
def colonsLit (v : ℕ) : Bool :=
  v.testBit 1 && v.testBit 2 && v.testBit 4 && v.testBit 5

end Display

/-- The bit pattern of a C 32-bit two's-complement `int` holding `n`
(4294967296 = 2^32). -/
def rep32 (n : ℤ) : ℕ := (Int.emod n 4294967296).toNat

/-- Outcome of an operation as seen by the operating system: the process
either keeps running or terminates with an exit code. -/
inductive ProcOutcome where
  | continues : ProcOutcome
  | exits : ℕ → ProcOutcome
deriving DecidableEq

/-- One fallible step: whether an error was reported via `perror` and whether
the process continues or terminates. -/
structure StepResult where
  reported : Bool
  outcome : ProcOutcome
deriving DecidableEq

namespace SPI_Sidereal

/-- Function `write_reg` in `SPI_Sidereal.c`:
`if (ioctl(spi_fd, SPI_IOC_MESSAGE(1), &tx_xfr) < 0) { perror(...); exit(1); }`. -/
def write_reg_step (ioctl_ret : ℤ) : StepResult :=
  if ioctl_ret < 0 then ⟨true, ProcOutcome.exits 1⟩ else ⟨false, ProcOutcome.continues⟩

/-- The clock reads in `update_display` and `schedule_timer`:
`if (clock_gettime(CLOCK_REALTIME, &now)) { perror(...); exit(1); }`. -/
def clock_read_step (ret : ℤ) : StepResult :=
  if ret ≠ 0 then ⟨true, ProcOutcome.exits 1⟩ else ⟨false, ProcOutcome.continues⟩

/-- Arming the timer in `schedule_timer`:
`if (timer_settime(timer_id, TIMER_ABSTIME, &my_itimerspec, NULL) < 0) { perror(...); exit(1); }`. -/
def timer_arm_step (ret : ℤ) : StepResult :=
  if ret < 0 then ⟨true, ProcOutcome.exits 1⟩ else ⟨false, ProcOutcome.continues⟩

/-- Variable `decode_mask` in `update_display`: all digits decode except the misc
digit, and the tenths digit's decode is cleared when the tenths digit is
disabled. -/
def decode_mask (tenth_enable : Bool) : ℕ :=
  let v := Display.not8 (Display.BV Display.DIGIT_MISC)
  if !tenth_enable then v &&& Display.not8 (Display.BV Display.DIGIT_100_MSEC) else v

/-- The digit positions this program writes raw (non-numeral) data to:
digit 7 always carries the raw indicator bitmask, and digit 6 carries a raw 0
when the tenths digit is disabled. -/
def raw_digit (tenth_enable : Bool) (d : ℕ) : Bool :=
  d == 7 || (d == 6 && !tenth_enable)

/-- Variable `misc_digit` in `update_display`: starts at 0 and receives both colon
pairs when `colon && ((!colon_blink) || (s % 2 == 0))`. -/
def misc_digit (colon colon_blink : Bool) (s : ℕ) : ℕ :=
  if colon && (!colon_blink || s % 2 == 0) then
    Display.MASK_COLON_HM ||| Display.MASK_COLON_MS
  else 0

/-- Assignment `brightness = atoi(optarg) & 0xf` in `main` of `SPI_Sidereal.c`, applied
to the `int` returned by `atoi`. -/
def brightness (n : ℤ) : ℕ := rep32 n &&& 0xf

end SPI_Sidereal

namespace SPI_Clock

/-- Function `write_reg` in `SPI_Clock.c`:
`if (ioctl(spi_fd, SPI_IOC_MESSAGE(1), &tx_xfr) < 0) { perror(...); }` —
the error is reported but the function returns normally. -/
def write_reg_step (ioctl_ret : ℤ) : StepResult :=
  if ioctl_ret < 0 then ⟨true, ProcOutcome.continues⟩ else ⟨false, ProcOutcome.continues⟩

/-- The clock read in `main` of `SPI_Clock.c`:
`if (clock_gettime(CLOCK_REALTIME, &now)) { perror(...); }` — reported, loop
continues. -/
def clock_read_step (ret : ℤ) : StepResult :=
  if ret ≠ 0 then ⟨true, ProcOutcome.continues⟩ else ⟨false, ProcOutcome.continues⟩

/-- The hour conversion in `main` of `SPI_Clock.c`:
`h = lt.tm_hour; pm = 0; if (ampm) { if (h == 0) h = 12; else if (h == 12)
pm = 1; else if (h > 12) { h -= 12; pm = 1; } }`; returns `(h, pm)`. -/
def hour_pm (ampm : Bool) (tm_hour : ℕ) : ℕ × Bool :=
  if ampm then
    if tm_hour == 0 then (12, false)
    else if tm_hour == 12 then (tm_hour, true)
    else if tm_hour > 12 then (tm_hour - 12, true)
    else (tm_hour, false)
  else (tm_hour, false)

/-- Variable `val` written to `MAX_REG_DEC_MODE` in `main` of `SPI_Clock.c`: all decode
except digit 7; clear bit 0 when the 12-hour leading zero is blanked
(`ampm && h < 10`); clear bit 6 when the tenths digit is off. -/
def decode_val (ampm tenth : Bool) (h : ℕ) : ℕ :=
  let val := Display.not8 (Display.BV 7)
  let val := if ampm ∧ h < 10 then val &&& Display.not8 (Display.BV 0) else val
  let val := if !tenth then val &&& Display.not8 (Display.BV 6) else val
  val

/-- The digit positions `SPI_Clock.c` writes raw (non-numeral) data to:
digit 7 always, digit 6 when the tenths digit is off (raw 0), and digit 0 when
the 12-hour leading zero is blanked (raw 0). -/
def raw_digit (ampm tenth : Bool) (h d : ℕ) : Bool :=
  d == 7 || (d == 6 && !tenth) || (d == 0 && (ampm && decide (h < 10)))

/-- The second `val` in `main` of `SPI_Clock.c`, written to digit 7: colon
pairs when `colon`, then the AM or PM light when `ampm`. -/
def indicator_val (colon ampm pm : Bool) : ℕ :=
  let val : ℕ := 0
  let val := if colon then val ||| (Display.MASK_COLON_HM ||| Display.MASK_COLON_MS) else val
  let val := if ampm then val ||| (if pm then Display.MASK_PM else Display.MASK_AM) else val
  val

/-- Assignment `brightness = atoi(optarg) & 0xf` in `main` of `SPI_Clock.c`, applied to
the `int` returned by `atoi`. -/
def brightness (n : ℤ) : ℕ := rep32 n &&& 0xf

end SPI_Clock

/-! ## Theorems -/

theorem wrap24_eq_of_le (g : ℚ) (h : g ≤ 24) : SPI_Sidereal.wrap24 g = g := by
  rw [SPI_Sidereal.wrap24, dif_neg (by linarith)]

theorem wrap24_bounds_aux :
    ∀ (n : ℕ) (g : ℚ), (⌈g⌉).toNat ≤ n → 0 ≤ g →
      0 ≤ SPI_Sidereal.wrap24 g ∧ SPI_Sidereal.wrap24 g ≤ 24 := by
  intro n
  induction n with
  | zero =>
    intro g hle hg
    have hle24 : g ≤ 24 := by
      have h1 : ⌈g⌉ ≤ 0 := by omega
      have h2 : g ≤ (⌈g⌉ : ℚ) := Int.le_ceil g
      have h3 : ((⌈g⌉ : ℤ) : ℚ) ≤ 0 := by exact_mod_cast h1
      linarith
    rw [wrap24_eq_of_le g hle24]
    exact ⟨hg, hle24⟩
  | succ n ih =>
    intro g hle hg
    rw [SPI_Sidereal.wrap24]
    by_cases h : g > 24
    · rw [dif_pos h]
      apply ih
      · have hsub : ⌈g - 24⌉ = ⌈g⌉ - 24 := by
          exact_mod_cast Int.ceil_sub_int g (24 : ℤ)
        have h25 : (25 : ℤ) ≤ ⌈g⌉ := by
          have h24 : (24 : ℚ) < (⌈g⌉ : ℚ) := lt_of_lt_of_le h (Int.le_ceil g)
          exact_mod_cast h24
        omega
      · linarith
    · rw [dif_neg h]
      exact ⟨hg, by linarith⟩

theorem wrap24_of_nonneg (g : ℚ) (hg : 0 ≤ g) :
    0 ≤ SPI_Sidereal.wrap24 g ∧ SPI_Sidereal.wrap24 g ≤ 24 :=
  wrap24_bounds_aux (⌈g⌉).toNat g le_rfl hg

theorem gmstRaw_nonneg (t : ℚ) (ht : SPI_Sidereal.EPOCH_CTIME ≤ t) :
    0 ≤ SPI_Sidereal.gmstRaw t := by
  have htpos : (0 : ℚ) ≤ t := le_trans (by norm_num [SPI_Sidereal.EPOCH_CTIME]) ht
  have hdiv : (0 : ℚ) ≤ t / 86400 := by positivity
  have hct : SPI_Sidereal.ctrunc (t / 86400) = ⌊t / 86400⌋ := if_pos hdiv
  have hE : SPI_Sidereal.EPOCH_CTIME = (946684800 : ℚ) := rfl
  have hcge : (10957 : ℤ) ≤ ⌊t / 86400⌋ := by
    apply Int.le_floor.mpr
    rw [le_div_iff₀ (by norm_num : (0 : ℚ) < 86400)]
    rw [hE] at ht
    push_cast
    linarith
  have hcle : (⌊t / 86400⌋ : ℚ) * 86400 ≤ t :=
    (le_div_iff₀ (by norm_num : (0 : ℚ) < 86400)).mp (Int.floor_le _)
  have hD0eq : SPI_Sidereal.D0 t = (⌊t / 86400⌋ : ℚ) - 10957.5 := by
    simp only [SPI_Sidereal.D0, SPI_Sidereal.JD0, SPI_Sidereal.EPOCH_CTIME,
      SPI_Sidereal.EPOCH_JDATE, hct]
    norm_num
    ring
  have hD0 : -(1/2 : ℚ) ≤ SPI_Sidereal.D0 t := by
    rw [hD0eq]
    have : (10957 : ℚ) ≤ (⌊t / 86400⌋ : ℚ) := by exact_mod_cast hcge
    norm_num
    linarith
  have hHeq : SPI_Sidereal.H t = (t - (⌊t / 86400⌋ : ℚ) * 86400) / 86400 * 24 := by
    simp only [SPI_Sidereal.H, SPI_Sidereal.JD, SPI_Sidereal.JD0, SPI_Sidereal.EPOCH_CTIME,
      SPI_Sidereal.EPOCH_JDATE, hct]
    ring
  have hH : 0 ≤ SPI_Sidereal.H t := by
    rw [hHeq]
    apply mul_nonneg (div_nonneg (by linarith) (by norm_num)) (by norm_num)
  simp only [SPI_Sidereal.gmstRaw]
  nlinarith [hD0, hH, mul_self_nonneg (SPI_Sidereal.T t)]

/-- C1 counterexample: at the instant 2000-01-01T00:00 UTC (C time 946684800)
and longitude −360 (inside the claimed range [−360, 360]), the wrapping loop
only ever subtracts 24, so the locally adjusted sidereal hour value is
negative, outside [0, 24). -/
theorem C1_counterexample : SPI_Sidereal.localGmst 946684800 (-360) < 0 := by
  have hct : SPI_Sidereal.ctrunc ((946684800 : ℚ) / 86400) = 10957 := by
    rw [SPI_Sidereal.ctrunc, if_pos (by norm_num)]
    rw [show ((946684800 : ℚ) / 86400) = ((10957 : ℤ) : ℚ) by norm_num]
    exact Int.floor_intCast _
  have hval : SPI_Sidereal.gmstRaw 946684800 + ((-360 : ℚ) / 360) * 24 < 0 := by
    simp only [SPI_Sidereal.gmstRaw, SPI_Sidereal.D0, SPI_Sidereal.H, SPI_Sidereal.T,
      SPI_Sidereal.JD, SPI_Sidereal.JD0, SPI_Sidereal.EPOCH_CTIME, SPI_Sidereal.EPOCH_JDATE, hct]
    norm_num
  simp only [SPI_Sidereal.localGmst]
  rw [wrap24_eq_of_le _ (by linarith)]
  exact hval

/-- C1 (amended): for every longitude in [0, 360] and every wall-clock instant
at or after 2000-01-01T00:00 UTC, the locally adjusted sidereal hour value
computed by `update_display` (GMST polynomial plus longitude/360 × 24, then
wrapped) lies in the closed interval [0, 24]. -/
theorem C1_local_sidereal_range (t longitude : ℚ)
    (ht : SPI_Sidereal.EPOCH_CTIME ≤ t) (h0 : 0 ≤ longitude) (h360 : longitude ≤ 360) :
    0 ≤ SPI_Sidereal.localGmst t longitude ∧ SPI_Sidereal.localGmst t longitude ≤ 24 := by
  have hg := gmstRaw_nonneg t ht
  have hlon : 0 ≤ (longitude / 360) * 24 := by positivity
  simp only [SPI_Sidereal.localGmst]
  exact wrap24_of_nonneg _ (by linarith)

/-- Witness for C1 at the epoch instant with longitude 0. -/
theorem C1_witness :
    SPI_Sidereal.EPOCH_CTIME ≤ (946684800 : ℚ) ∧ (0 : ℚ) ≤ 0 ∧ (0 : ℚ) ≤ 360 ∧
    (0 ≤ SPI_Sidereal.localGmst 946684800 0 ∧ SPI_Sidereal.localGmst 946684800 0 ≤ 24) :=
  ⟨by norm_num [SPI_Sidereal.EPOCH_CTIME], le_refl 0, by norm_num,
    C1_local_sidereal_range 946684800 0 (by norm_num [SPI_Sidereal.EPOCH_CTIME])
      (le_refl 0) (by norm_num)⟩

/-- C5 counterexample: at 2000-01-01T03:00 UTC (C time 946695600) the GMST
value computed by `update_display` differs from the claim's formula, whose
`D0` and `T` are measured from the epoch JD 2451544.5 (2000-01-01T00:00 UTC):
the code measures both from JD 2451545.0. -/
theorem C5_counterexample :
    SPI_Sidereal.gmstRaw 946695600 ≠ SPI_Sidereal.gmstSpecClaim 946695600 := by
  have hf : ⌊(946695600 : ℚ) / 86400⌋ = 10957 := by
    rw [Int.floor_eq_iff]
    constructor <;> norm_num
  have hct : SPI_Sidereal.ctrunc ((946695600 : ℚ) / 86400) = 10957 := by
    rw [SPI_Sidereal.ctrunc, if_pos (by norm_num), hf]
  simp only [SPI_Sidereal.gmstRaw, SPI_Sidereal.gmstSpecClaim, SPI_Sidereal.specJDmid,
    SPI_Sidereal.specMidnight, SPI_Sidereal.D0, SPI_Sidereal.H, SPI_Sidereal.T,
    SPI_Sidereal.JD, SPI_Sidereal.JD0, SPI_Sidereal.EPOCH_CTIME, SPI_Sidereal.EPOCH_JDATE,
    hct, hf]
  norm_num

/-- C5 (amended): for every nonnegative wall-clock instant, `update_display`
computes GMST in hours as
6.697374558 + 0.06570982441908·D0 + 1.00273790935·H + 0.000026·T², where D0
is the Julian-date offset of the most recent UTC midnight from JD 2451545.0
(2000-01-01T12:00 UTC), H is the hours elapsed since that midnight, and T is
the Julian centuries elapsed since JD 2451545.0. -/
theorem C5_gmst_formula (t : ℚ) (ht : 0 ≤ t) :
    SPI_Sidereal.gmstRaw t = SPI_Sidereal.gmstSpecAmended t := by
  have hct : SPI_Sidereal.ctrunc (t / 86400) = ⌊t / 86400⌋ :=
    if_pos (by positivity)
  simp only [SPI_Sidereal.gmstRaw, SPI_Sidereal.gmstSpecAmended, SPI_Sidereal.specJDmid,
    SPI_Sidereal.specMidnight, SPI_Sidereal.D0, SPI_Sidereal.H, SPI_Sidereal.T,
    SPI_Sidereal.JD, SPI_Sidereal.JD0, SPI_Sidereal.EPOCH_CTIME, SPI_Sidereal.EPOCH_JDATE,
    hct]
  ring

/-- Witness for C5 at 2000-01-01T03:00 UTC. -/
theorem C5_witness :
    (0 : ℚ) ≤ 946695600 ∧
      SPI_Sidereal.gmstRaw 946695600 = SPI_Sidereal.gmstSpecAmended 946695600 :=
  ⟨by norm_num, C5_gmst_formula 946695600 (by norm_num)⟩

theorem carryLoop_eq (sec : ℤ) (t : ℕ) :
    SPI_Sidereal.carryLoop sec t = (sec + (t / 10 : ℕ), t % 10) := by
  induction t using Nat.strong_induction_on generalizing sec with
  | _ t ih =>
    rw [SPI_Sidereal.carryLoop]
    by_cases h : t ≥ 10
    · rw [if_pos h, ih (t - 10) (by omega) (sec + 1)]
      simp only [Prod.mk.injEq]
      refine ⟨by omega, by omega⟩
    · rw [if_neg h]
      simp only [Prod.mk.injEq]
      refine ⟨by omega, by omega⟩

theorem wakeNanos_closed (sec : ℤ) (nsec : ℕ) :
    SPI_Sidereal.wakeNanos sec nsec =
      sec * 1000000000 + (((nsec / 10000000 + 5) / 10 + 1) * 100000000 : ℕ) -
        SPI_Sidereal.FUDGE := by
  have hH : SPI_Sidereal.HUNDREDTH_IN_NANOS = 10000000 := rfl
  have hT : SPI_Sidereal.TENTH_IN_NANOS = 100000000 := rfl
  have hS : SPI_Sidereal.SECOND_IN_NANOS = 1000000000 := rfl
  simp only [SPI_Sidereal.wakeNanos, SPI_Sidereal.schedule_timer, carryLoop_eq, hH, hT, hS]
  by_cases h : ((nsec / 10000000 + 5) / 10 + 1) % 10 = 0
  · rw [if_neg (by simp [h])]
    dsimp only
    simp only [SPI_Sidereal.FUDGE]
    omega
  · rw [if_pos (by simp [h])]
    dsimp only
    simp only [SPI_Sidereal.FUDGE]
    omega

/-- C3 counterexample: with the clock reading 0.05 s past a whole second,
rounding up to the next tenth boundary would give a wake time of
0.1 s − fudge, but `schedule_timer` targets 0.2 s − fudge: it rounds the
hundredth-truncated reading to the *nearest* tenth and then adds one tenth. -/
theorem C3_counterexample :
    SPI_Sidereal.wakeNanos 0 50000000 ≠ SPI_Sidereal.specNextTenthWake 0 50000000 := by
  rw [wakeNanos_closed]
  have hT : SPI_Sidereal.TENTH_IN_NANOS = 100000000 := rfl
  simp only [SPI_Sidereal.specNextTenthWake, hT, SPI_Sidereal.FUDGE]
  norm_num

/-- C3 (amended): for every valid clock reading, the absolute wake time
computed by `schedule_timer` equals the reading truncated to hundredths,
rounded half-up to the nearest tenth-of-second boundary, plus one further
tenth of a second, minus the latency-compensation constant `FUDGE`. -/
theorem C3_wake_time (sec : ℤ) (nsec : ℕ) (hn : nsec < 1000000000) :
    SPI_Sidereal.wakeNanos sec nsec = SPI_Sidereal.nearestTenthSuccessorWake sec nsec := by
  rw [wakeNanos_closed]
  have hH : SPI_Sidereal.HUNDREDTH_IN_NANOS = 10000000 := rfl
  have hT : SPI_Sidereal.TENTH_IN_NANOS = 100000000 := rfl
  simp only [SPI_Sidereal.nearestTenthSuccessorWake, hH, hT]

/-- Witness for C3 at the reading (0 s, 0 ns). -/
theorem C3_witness :
    (0 : ℕ) < 1000000000 ∧
      SPI_Sidereal.wakeNanos 0 0 = SPI_Sidereal.nearestTenthSuccessorWake 0 0 :=
  ⟨by norm_num, C3_wake_time 0 0 (by norm_num)⟩

theorem wakeNanos_gt_total (sec : ℤ) (nsec : ℕ) :
    SPI_Sidereal.totalNanos sec nsec < SPI_Sidereal.wakeNanos sec nsec := by
  rw [wakeNanos_closed]
  simp only [SPI_Sidereal.totalNanos, SPI_Sidereal.FUDGE]
  omega

theorem wakeNanos_spacing (sec1 : ℤ) (nsec1 : ℕ) (sec2 : ℤ) (nsec2 : ℕ)
    (h2 : nsec2 < 1000000000)
    (hlo : SPI_Sidereal.wakeNanos sec1 nsec1 ≤ SPI_Sidereal.totalNanos sec2 nsec2)
    (hhi : SPI_Sidereal.totalNanos sec2 nsec2 ≤
      SPI_Sidereal.wakeNanos sec1 nsec1 + 2 * SPI_Sidereal.FUDGE) :
    SPI_Sidereal.wakeNanos sec2 nsec2 = SPI_Sidereal.wakeNanos sec1 nsec1 + 100000000 := by
  rw [wakeNanos_closed] at hlo hhi ⊢
  rw [wakeNanos_closed sec1 nsec1]
  simp only [SPI_Sidereal.totalNanos, SPI_Sidereal.FUDGE] at hlo hhi ⊢
  omega

theorem splitTotal_total (n : ℤ) :
    SPI_Sidereal.totalNanos (SPI_Sidereal.splitTotal n).1 (SPI_Sidereal.splitTotal n).2 = n := by
  simp only [SPI_Sidereal.totalNanos, SPI_Sidereal.splitTotal]
  omega

theorem splitTotal_valid (n : ℤ) : (SPI_Sidereal.splitTotal n).2 < 1000000000 := by
  simp only [SPI_Sidereal.splitTotal]
  omega

/-- C4: along any sequence of clock readings in which each tick's reading is
at or after the wake time armed by the previous tick (the `TIMER_ABSTIME`
guarantee), the computed wake times are strictly increasing — for all ticks,
across any second/minute/hour/day rollover — and whenever the tick latency
stays within the compensation tolerance (the reading is at most 2·FUDGE past
the armed time), consecutive wake times are exactly one tenth of a second
apart. Each target is computed from the current reading only. -/
theorem C4_monotonic_schedule (r : ℕ → ℤ × ℕ)
    (hvalid : ∀ k, (r k).2 < 1000000000)
    (hfire : ∀ k, SPI_Sidereal.wakeNanos (r k).1 (r k).2 ≤
      SPI_Sidereal.totalNanos (r (k+1)).1 (r (k+1)).2) :
    (∀ k, SPI_Sidereal.wakeNanos (r k).1 (r k).2 <
        SPI_Sidereal.wakeNanos (r (k+1)).1 (r (k+1)).2) ∧
    (∀ k, SPI_Sidereal.totalNanos (r (k+1)).1 (r (k+1)).2 ≤
        SPI_Sidereal.wakeNanos (r k).1 (r k).2 + 2 * SPI_Sidereal.FUDGE →
      SPI_Sidereal.wakeNanos (r (k+1)).1 (r (k+1)).2 =
        SPI_Sidereal.wakeNanos (r k).1 (r k).2 + 100000000) := by
  constructor
  · intro k
    exact lt_of_le_of_lt (hfire k) (wakeNanos_gt_total _ _)
  · intro k hk
    exact wakeNanos_spacing _ _ _ _ (hvalid (k + 1)) (hfire k) hk

/-- Witness for C4 on the ideal tick sequence `wseq`. -/
theorem C4_witness :
    (∀ k, SPI_Sidereal.wakeNanos (SPI_Sidereal.wseq k).1 (SPI_Sidereal.wseq k).2 <
        SPI_Sidereal.wakeNanos (SPI_Sidereal.wseq (k+1)).1 (SPI_Sidereal.wseq (k+1)).2) ∧
    (∀ k, SPI_Sidereal.totalNanos (SPI_Sidereal.wseq (k+1)).1 (SPI_Sidereal.wseq (k+1)).2 ≤
        SPI_Sidereal.wakeNanos (SPI_Sidereal.wseq k).1 (SPI_Sidereal.wseq k).2 +
          2 * SPI_Sidereal.FUDGE →
      SPI_Sidereal.wakeNanos (SPI_Sidereal.wseq (k+1)).1 (SPI_Sidereal.wseq (k+1)).2 =
        SPI_Sidereal.wakeNanos (SPI_Sidereal.wseq k).1 (SPI_Sidereal.wseq k).2 + 100000000) :=
  C4_monotonic_schedule SPI_Sidereal.wseq
    (fun k => by
      cases k with
      | zero => norm_num [SPI_Sidereal.wseq]
      | succ k => exact splitTotal_valid _)
    (fun k => le_of_eq (splitTotal_total _).symm)

/-- Helper: `decode_val` takes one of four byte values, depending on whether the
leading hour is blanked and whether the tenths digit is enabled. -/
theorem decode_val_cases (ampm tenth : Bool) (h : ℕ) :
    SPI_Clock.decode_val ampm tenth h =
      if ampm ∧ h < 10 then (if tenth then 126 else 62)
      else (if tenth then 127 else 63) := by
  by_cases hh : ampm ∧ h < 10 <;> cases tenth <;>
    simp [SPI_Clock.decode_val, hh] <;> decide

/-- C7 counterexample: the indicator digit (digit 7) is always written as a
raw segment bitmask, yet its bit in the emitted decode-mode byte is 0, not 1:
in the MAX6951 decode register the code uses, a set bit selects BCD decode
and a cleared bit selects raw segment mode — the claim has the sense
inverted. -/
theorem C7_counterexample :
    (SPI_Sidereal.decode_mask true).testBit 7 = false ∧
      SPI_Sidereal.raw_digit true 7 = true := by
  decide

/-- C7 (amended): in every decode-mode register byte either program emits, a
bit value of **0** for a digit position selects raw segment mode and a bit
value of **1** selects BCD/numeral decode: a position's bit is clear exactly
when the program writes raw (non-numeral) data to that position. -/
theorem C7_decode_bit_sense :
    (∀ (tenth : Bool) (d : ℕ), d < 8 →
      ((SPI_Sidereal.decode_mask tenth).testBit d = false ↔
        SPI_Sidereal.raw_digit tenth d = true)) ∧
    (∀ (ampm tenth : Bool) (h d : ℕ), d < 8 →
      ((SPI_Clock.decode_val ampm tenth h).testBit d = false ↔
        SPI_Clock.raw_digit ampm tenth h d = true)) := by
  constructor
  · intro tenth d hd
    cases tenth <;> interval_cases d <;> decide
  · intro ampm tenth h d hd
    rw [decode_val_cases]
    by_cases hh : ampm ∧ h < 10
    · obtain ⟨ha, hlt⟩ := hh
      subst ha
      rw [if_pos ⟨rfl, hlt⟩]
      simp only [SPI_Clock.raw_digit, hlt, decide_True, Bool.and_true, Bool.true_and]
      cases tenth <;> interval_cases d <;> decide
    · rw [if_neg hh]
      have hb : (ampm && decide (h < 10)) = false := by
        cases ampm <;> simp_all
      simp only [SPI_Clock.raw_digit, hb, Bool.and_false, Bool.or_false]
      cases tenth <;> interval_cases d <;> decide

/-- Witness for C7: with the tenths digit disabled, the sidereal program's
tenths position (digit 6) has a cleared decode bit and is written raw. -/
theorem C7_witness :
    (6 : ℕ) < 8 ∧
      ((SPI_Sidereal.decode_mask false).testBit 6 = false ↔
        SPI_Sidereal.raw_digit false 6 = true) :=
  ⟨by norm_num, C7_decode_bit_sense.1 false 6 (by norm_num)⟩

/-- C8: in every emitted decode-mask byte of either program, the tenths
digit's (digit 6's) decode bit is clear if and only if the sub-second digit
is disabled, and the indicator digit's (digit 7's) decode bit is always
clear. -/
theorem C8_decode_mask_bits :
    (∀ tenth : Bool,
      ((SPI_Sidereal.decode_mask tenth).testBit 6 = false ↔ tenth = false) ∧
      (SPI_Sidereal.decode_mask tenth).testBit 7 = false) ∧
    (∀ (ampm tenth : Bool) (h : ℕ),
      ((SPI_Clock.decode_val ampm tenth h).testBit 6 = false ↔ tenth = false) ∧
      (SPI_Clock.decode_val ampm tenth h).testBit 7 = false) := by
  constructor
  · intro tenth
    cases tenth <;> decide
  · intro ampm tenth h
    rw [decode_val_cases]
    by_cases hh : ampm ∧ h < 10 <;> cases tenth <;> simp [hh] <;> decide

/-- C9: for every decomposed time, with colon enabled and blink disabled the
hour:minute and minute:second colon bit-pairs of the indicator digit are both
set regardless of the seconds value (this also covers `SPI_Clock.c`, which has
no blink option); with colon enabled and blink enabled, both colon bit-pairs
are set if and only if the seconds value is even. -/
theorem C9_colon_indicator :
    (∀ s : ℕ, Display.colonsLit (SPI_Sidereal.misc_digit true false s) = true) ∧
    (∀ s : ℕ, Display.colonsLit (SPI_Sidereal.misc_digit true true s) = true ↔ s % 2 = 0) ∧
    (∀ ampm pm : Bool, Display.colonsLit (SPI_Clock.indicator_val true ampm pm) = true) := by
  refine ⟨?_, ?_, ?_⟩
  · intro s
    have hv : SPI_Sidereal.misc_digit true false s =
        Display.MASK_COLON_HM ||| Display.MASK_COLON_MS := by
      simp [SPI_Sidereal.misc_digit]
    rw [hv]
    decide
  · intro s
    rcases Nat.mod_two_eq_zero_or_one s with hs | hs
    · have hv : SPI_Sidereal.misc_digit true true s =
          Display.MASK_COLON_HM ||| Display.MASK_COLON_MS := by
        simp [SPI_Sidereal.misc_digit, hs]
      rw [hv, hs]
      decide
    · have hv : SPI_Sidereal.misc_digit true true s = 0 := by
        simp [SPI_Sidereal.misc_digit, hs]
      rw [hv, hs]
      decide
  · intro ampm pm
    cases ampm <;> cases pm <;> decide

/-- C6: in 12-hour civil mode, for every hour-of-day in [0, 23]: hours 0 and
12 both display as 12, hours 1–11 display unchanged, hours 13–23 display as
hour − 12, and the meridiem flag is PM exactly when the hour-of-day is at
least 12. -/
theorem C6_hour12 (hr : ℕ) (hhr : hr ≤ 23) :
    ((hr = 0 ∨ hr = 12) → (SPI_Clock.hour_pm true hr).1 = 12) ∧
    (1 ≤ hr → hr ≤ 11 → (SPI_Clock.hour_pm true hr).1 = hr) ∧
    (13 ≤ hr → (SPI_Clock.hour_pm true hr).1 = hr - 12) ∧
    ((SPI_Clock.hour_pm true hr).2 = true ↔ 12 ≤ hr) := by
  interval_cases hr <;> decide

/-- Witness for C6 at hour-of-day 13. -/
theorem C6_witness :
    (13 : ℕ) ≤ 23 ∧
      (((13 : ℕ) = 0 ∨ (13 : ℕ) = 12) → (SPI_Clock.hour_pm true 13).1 = 12) ∧
      (1 ≤ (13 : ℕ) → (13 : ℕ) ≤ 11 → (SPI_Clock.hour_pm true 13).1 = 13) ∧
      (13 ≤ (13 : ℕ) → (SPI_Clock.hour_pm true 13).1 = 13 - 12) ∧
      ((SPI_Clock.hour_pm true 13).2 = true ↔ 12 ≤ (13 : ℕ)) :=
  ⟨by norm_num, C6_hour12 13 (by norm_num)⟩

/-- C2 counterexample: in `SPI_Clock.c` a failed SPI `ioctl` in `write_reg`
and a failed `clock_gettime` in the main loop are only reported with
`perror`; the process keeps running its update loop, contradicting the
claim that every such failure terminates the process. -/
theorem C2_counterexample :
    (SPI_Clock.write_reg_step (-1)).outcome = ProcOutcome.continues ∧
      (SPI_Clock.clock_read_step (-1)).outcome = ProcOutcome.continues := by
  decide

/-- C2 (amended): in `SPI_Sidereal.c` every clock-read failure, SPI-write
failure and timer-arm failure causes immediate termination with exit code 1
and no retry; in `SPI_Clock.c` the corresponding clock-read and SPI-write
failures are reported to stderr but the process continues its loop. -/
theorem C2_failure_semantics (ret : ℤ) (hret : ret < 0) :
    (SPI_Sidereal.write_reg_step ret).outcome = ProcOutcome.exits 1 ∧
    (SPI_Sidereal.clock_read_step ret).outcome = ProcOutcome.exits 1 ∧
    (SPI_Sidereal.timer_arm_step ret).outcome = ProcOutcome.exits 1 ∧
    (SPI_Clock.write_reg_step ret).outcome = ProcOutcome.continues ∧
    (SPI_Clock.write_reg_step ret).reported = true ∧
    (SPI_Clock.clock_read_step ret).outcome = ProcOutcome.continues ∧
    (SPI_Clock.clock_read_step ret).reported = true := by
  have hne : ret ≠ 0 := by omega
  simp [SPI_Sidereal.write_reg_step, SPI_Sidereal.clock_read_step,
    SPI_Sidereal.timer_arm_step, SPI_Clock.write_reg_step, SPI_Clock.clock_read_step,
    hret, hne]

/-- Witness for C2 at return value −1. -/
theorem C2_witness :
    ((-1 : ℤ) < 0) ∧
      ((SPI_Sidereal.write_reg_step (-1)).outcome = ProcOutcome.exits 1 ∧
      (SPI_Sidereal.clock_read_step (-1)).outcome = ProcOutcome.exits 1 ∧
      (SPI_Sidereal.timer_arm_step (-1)).outcome = ProcOutcome.exits 1 ∧
      (SPI_Clock.write_reg_step (-1)).outcome = ProcOutcome.continues ∧
      (SPI_Clock.write_reg_step (-1)).reported = true ∧
      (SPI_Clock.clock_read_step (-1)).outcome = ProcOutcome.continues ∧
      (SPI_Clock.clock_read_step (-1)).reported = true) :=
  ⟨by norm_num, C2_failure_semantics (-1) (by norm_num)⟩

/-- C10: for every integer value parsed from the `-b` argument, the
brightness written to the intensity register is that value masked to its low
4 bits — equal to the value taken modulo 16 (Euclidean, so also for negative
inputs) — hence always in [0, 15]; out-of-range inputs wrap rather than
clamp: `-b 16` yields brightness 0, not 15. -/
theorem C10_brightness :
    (∀ n : ℤ, SPI_Clock.brightness n = (n % 16).toNat ∧
      SPI_Sidereal.brightness n = (n % 16).toNat ∧
      SPI_Clock.brightness n < 16) ∧
    SPI_Clock.brightness 16 = 0 ∧ SPI_Clock.brightness 16 ≠ 15 := by
  have hland : ∀ m : ℕ, m &&& 15 = m % 16 := by
    intro m
    apply Nat.eq_of_testBit_eq
    intro i
    rw [Nat.testBit_land, show (15 : ℕ) = 2 ^ 4 - 1 by norm_num,
      Nat.testBit_two_pow_sub_one, show (16 : ℕ) = 2 ^ 4 by norm_num,
      Nat.testBit_mod_two_pow]
    exact Bool.and_comm _ _
  refine ⟨fun n => ?_, by decide, by decide⟩
  have hc : SPI_Clock.brightness n = (Int.emod n 4294967296).toNat &&& 15 := rfl
  have hs : SPI_Sidereal.brightness n = (Int.emod n 4294967296).toNat &&& 15 := rfl
  rw [hc, hs, hland]
  have hm : Int.emod n 4294967296 = n % 4294967296 := rfl
  rw [hm]
  refine ⟨by omega, by omega, by omega⟩
